import Mathlib

/-
Verification of the CRUD persistence and API contract of the rag_robot
repository (prompt templates, documents, models).

The repository snapshot contains the storage schema (docker/init.sql), the
typed Client SDK (frontend/src/api/client.ts, prompts.ts, models.ts,
documents.ts) and the React UI views.  The FastAPI backend
(src.bot_app.app, referenced by the Dockerfile CMD) is not part of the
snapshot, so the Data Access Layer operations are modelled from the spec
where noted; everything else is translated from the source files.

Timestamps are modelled as natural-number instants (the DB stores DATETIME,
the SDK carries them as strings; only ordering and equality matter here).
-/

namespace RagRobot

/-- Error taxonomy of the DAL/API layer (spec section 7): `notFound` for a
missing id or name, `validationError` for an empty required field. -/
inductive DalError where
  | notFound
  | validationError
  deriving DecidableEq

/-- PromptTemplate record, from the `PromptTemplate` interface in
frontend/src/api/prompts.ts and the `prompt_template_table` schema in
docker/init.sql. -/
structure PromptTemplate where
  id : Nat
  name : String
  description : String
  system_prompt : String
  created_at : Nat
  updated_at : Nat
  deriving DecidableEq

/-- Creation payload, from the `PromptTemplateCreate` interface in
frontend/src/api/prompts.ts. -/
structure PromptTemplateCreate where
  name : String
  description : String
  system_prompt : String
  deriving DecidableEq

/-- Partial-update payload: every field optional, from the
`PromptTemplateUpdate` interface in frontend/src/api/prompts.ts. -/
structure PromptTemplateUpdate where
  name : Option String
  description : Option String
  system_prompt : Option String
  deriving DecidableEq

/-- Server-side state of the prompt-template table: the auto-increment
counter and the stored rows (most recently inserted first). -/
structure PromptStore where
  nextId : Nat
  rows : List PromptTemplate
  deriving DecidableEq

/-- Modelled from the spec: the DAL `create` operation for prompt templates
(the FastAPI backend is not in the repository snapshot).  Spec 4.1: inserts
a new record with server-generated `id` and `created_at` = `updated_at` =
now; fails with `ValidationError` if a required field is empty.  Spec 3
marks `name` and `system_prompt` required, `description` optional. -/
def createPrompt (f : PromptTemplateCreate) (now : Nat) (s : PromptStore) :
    Except DalError (Nat × PromptStore) :=
  if f.name = "" ∨ f.system_prompt = "" then
    .error .validationError
  else
    .ok (s.nextId,
      { nextId := s.nextId + 1,
        rows := { id := s.nextId, name := f.name, description := f.description,
                  system_prompt := f.system_prompt,
                  created_at := now, updated_at := now } :: s.rows })

/-- Modelled from the spec: the DAL `get` operation for prompt templates
(backend not in the snapshot).  Spec 4.1: fails with `NotFoundError` if no
record with that id exists. -/
def getPrompt (i : Nat) (s : PromptStore) : Except DalError PromptTemplate :=
  match s.rows.find? (fun r => r.id == i) with
  | some r => .ok r
  | none => .error .notFound

/-- Merge of a partial update into a stored row: only supplied fields are
overwritten, `updated_at` is set to now (spec 4.1 `update`). -/
def applyPromptUpdate (r : PromptTemplate) (p : PromptTemplateUpdate)
    (now : Nat) : PromptTemplate :=
  { r with
    name := p.name.getD r.name,
    description := p.description.getD r.description,
    system_prompt := p.system_prompt.getD r.system_prompt,
    updated_at := now }

/-- Modelled from the spec: the DAL `update` operation for prompt templates
(backend not in the snapshot).  Spec 4.1: fails with `NotFoundError` if id
absent; only supplied fields are overwritten; `updated_at` is always
refreshed even if no field value actually changed. -/
def updatePrompt (i : Nat) (p : PromptTemplateUpdate) (now : Nat)
    (s : PromptStore) : Except DalError PromptStore :=
  if s.rows.any (fun r => r.id == i) then
    .ok { s with
          rows := s.rows.map
            (fun r => if r.id == i then applyPromptUpdate r p now else r) }
  else
    .error .notFound

/-- Modelled from the spec: the DAL `delete` operation for prompt templates
(backend not in the snapshot).  Spec 4.1: permanent removal; fails with
`NotFoundError` if absent. -/
def deletePrompt (i : Nat) (s : PromptStore) : Except DalError PromptStore :=
  if s.rows.any (fun r => r.id == i) then
    .ok { s with rows := s.rows.filter (fun r => r.id != i) }
  else
    .error .notFound

/-- State-passing wrapper for `deletePrompt` as the API layer runs it: a
failed delete leaves the caller with the unchanged store. -/
def deletePromptRun (i : Nat) (s : PromptStore) :
    Except DalError Unit × PromptStore :=
  match deletePrompt i s with
  | .ok s2 => (.ok (), s2)
  | .error e => (.error e, s)

/-- Document record, from the `Document` interface in
frontend/src/api/documents.ts and the `document_table` schema in
docker/init.sql (`doc` is the required LONGTEXT body, `title` optional). -/
structure Document where
  id : Nat
  title : String
  doc : String
  created_at : Nat
  updated_at : Nat
  deriving DecidableEq

/-- Preview projection, from the `DocumentPreview` interface in
frontend/src/api/documents.ts: carries `doc_preview` instead of `doc`. -/
structure DocumentPreview where
  id : Nat
  title : String
  doc_preview : String
  created_at : Nat
  updated_at : Nat
  deriving DecidableEq

/-- Creation payload, from the `DocumentCreate` interface in
frontend/src/api/documents.ts. -/
structure DocumentCreate where
  title : String
  doc : String
  deriving DecidableEq

/-- Partial-update payload, from the `DocumentUpdate` interface in
frontend/src/api/documents.ts. -/
structure DocumentUpdate where
  title : Option String
  doc : Option String
  deriving DecidableEq

/-- Server-side state of the document table. -/
structure DocStore where
  nextId : Nat
  rows : List Document
  deriving DecidableEq

/-- Modelled from the spec: the bound on the preview length (spec 3 and the
glossary only require a fixed bounded-length truncation of `doc`; the
backend holding the constant is not in the snapshot, so one fixed bound is
chosen). -/
def previewLen : Nat := 200

/-- Modelled from the spec: the preview projection used by `list`/`search`
(backend not in the snapshot): `doc_preview` is the truncation of `doc` to
at most `previewLen` characters, all other fields copied. -/
def toPreview (d : Document) : DocumentPreview :=
  { id := d.id, title := d.title,
    doc_preview := String.mk (d.doc.data.take previewLen),
    created_at := d.created_at, updated_at := d.updated_at }

/-- Modelled from the spec: the DAL `create` operation for documents
(backend not in the snapshot).  Spec 3: `doc` is required, `title`
optional; spec 4.1: empty required field fails with `ValidationError`. -/
def createDoc (f : DocumentCreate) (now : Nat) (s : DocStore) :
    Except DalError (Nat × DocStore) :=
  if f.doc = "" then
    .error .validationError
  else
    .ok (s.nextId,
      { nextId := s.nextId + 1,
        rows := { id := s.nextId, title := f.title, doc := f.doc,
                  created_at := now, updated_at := now } :: s.rows })

/-- Modelled from the spec: the DAL `get` operation for documents (backend
not in the snapshot); returns the full stored record, `doc` body included. -/
def getDoc (i : Nat) (s : DocStore) : Except DalError Document :=
  match s.rows.find? (fun r => r.id == i) with
  | some r => .ok r
  | none => .error .notFound

/-- Modelled from the spec: the DAL `list` operation for documents (backend
not in the snapshot).  Spec 4.1/4.2: `skip` drops leading records, `limit`
bounds the result size, the result is a sequence of previews; an
out-of-range offset yields an empty sequence, never an error. -/
def listDocs (skip limit : Nat) (s : DocStore) : List DocumentPreview :=
  ((s.rows.drop skip).take limit).map toPreview

/-- Modelled from the spec: the DAL `count` operation for documents
(backend not in the snapshot): total record count. -/
def countDocs (s : DocStore) : Nat := s.rows.length

/-- Lower-cased character list of a string, for case-insensitive matching. -/
def lowerChars (s : String) : List Char := s.data.map Char.toLower

/-- `needleStartsHere hay needle` is true when `needle` occurs at the head
of `hay`. -/
def needleStartsHere : List Char → List Char → Bool
  | _, [] => true
  | [], _ :: _ => false
  | h :: t, n :: ns => h == n && needleStartsHere t ns

/-- `hasSub hay needle` is true when `needle` occurs contiguously anywhere
inside `hay`. -/
def hasSub : List Char → List Char → Bool
  | [], needle => needleStartsHere [] needle
  | h :: t, needle => needleStartsHere (h :: t) needle || hasSub t needle

/-- Modelled from the spec: the DAL `search` operation for documents
(backend not in the snapshot).  Spec 4.1: case-insensitive substring match
against `title` and/or `doc`, returning previews. -/
def searchDocs (kw : String) (s : DocStore) : List DocumentPreview :=
  (s.rows.filter
    (fun d => hasSub (lowerChars d.title) (lowerChars kw) ||
              hasSub (lowerChars d.doc) (lowerChars kw))).map toPreview

/-- First seeded document row from docker/init.sql
(`INSERT INTO document_table (doc, title) VALUES ...`). -/
def seedDoc1 : Document :=
  { id := 1,
    title := "Python快速入门指南",
    doc := "# Python 快速入门指南\n\n## 1. 安装Python\n首先，从官方网站下载并安装Python。\n\n## 2. 基础语法\nPython使用缩进来表示代码块。",
    created_at := 0, updated_at := 0 }

/-- Second seeded document row from docker/init.sql. -/
def seedDoc2 : Document :=
  { id := 2,
    title := "RAG机器人产品说明书",
    doc := "# RAG机器人产品说明书\n\n## 产品概述\nRAG机器人是一款基于检索增强生成技术的智能问答系统。\n\n## 主要功能\n1. 智能问答\n2. 文档管理",
    created_at := 0, updated_at := 0 }

/-- Document store as seeded by docker/init.sql: two rows, auto-increment
counter at 3, most recently inserted row first. -/
def seedDocStore : DocStore :=
  { nextId := 3, rows := [seedDoc2, seedDoc1] }

/-- A JavaScript value as it appears in SDK request params and rendered
cells: a number, a string, or nothing. -/
inductive JsValue where
  | num (n : Nat)
  | str (s : String)
  deriving DecidableEq

/-- JavaScript property access on an object modelled as a key/value list:
`none` is the `undefined` read of an absent property. -/
def jsGet (o : List (String × JsValue)) (k : String) : Option JsValue :=
  (o.find? (fun kv => kv.1 == k)).map (fun kv => kv.2)

/-- The properties of a `DocumentPreview` value as a JavaScript object,
with the exact keys of the interface in frontend/src/api/documents.ts. -/
def DocumentPreview.toObj (d : DocumentPreview) : List (String × JsValue) :=
  [("id", .num d.id), ("title", .str d.title),
   ("doc_preview", .str d.doc_preview),
   ("created_at", .num d.created_at), ("updated_at", .num d.updated_at)]

/-- The value rendered in the name table cell of the document list view:
`DocumentList` in frontend/src/components/ModelList.tsx renders
`doc.name` for each preview row. -/
def documentListNameCell (d : DocumentPreview) : Option JsValue :=
  jsGet (DocumentPreview.toObj d) ("name")

/-- An HTTP request as issued by a Client SDK method: verb and url path
(frontend/src/api/prompts.ts, models.ts, documents.ts). -/
structure SdkRequest where
  method : String
  url : String
  deriving DecidableEq

/-- `promptApi.list` request, from frontend/src/api/prompts.ts:
`apiClient.get('/prompts/list')`. -/
def promptListRequest : SdkRequest :=
  { method := "get", url := "/prompts/list" }

/-- `modelApi.list` request, from frontend/src/api/models.ts:
`apiClient.get('/models/')`. -/
def modelListRequest : SdkRequest :=
  { method := "get", url := "/models/" }

/-- `documentApi.list` request, from frontend/src/api/documents.ts:
`apiClient.get('/documents/list', ...)`. -/
def documentListRequest : SdkRequest :=
  { method := "get", url := "/documents/list" }

/-- The endpoint scheme claimed by the spec (section 4.2): the list
operation of a resource lives at `GET /{resource}/list`.  This definition
follows the spec's words, to be compared with the SDK request paths. -/
def listPathOf (resource : String) : String :=
  "/" ++ resource ++ "/list"

/-- Field names of the `promptApi.create` response type, from
frontend/src/api/prompts.ts: `{ id: number; message: string }`. -/
def promptCreateResponseFields : List String :=
  ["id", "message"]

/-- Field names of the `modelApi.create` response type `ModelConfig`, from
frontend/src/api/models.ts. -/
def modelCreateResponseFields : List String :=
  ["id", "name", "description", "created_at", "updated_at"]

/-- Field names of the `documentApi.create` response type `Document`, from
frontend/src/api/documents.ts. -/
def documentCreateResponseFields : List String :=
  ["id", "title", "doc", "created_at", "updated_at"]

/-- An axios request config as seen by the interceptor in
frontend/src/api/client.ts: method, url and query params. -/
structure AxiosConfig where
  method : String
  url : String
  params : List (String × JsValue)
  deriving DecidableEq

/-- JavaScript object spread update `\x7b...o, k: v\x7d`: an existing key
keeps its position and gets the new value, a fresh key is appended. -/
def setKey (o : List (String × JsValue)) (k : String) (v : JsValue) :
    List (String × JsValue) :=
  if o.any (fun kv => kv.1 == k) then
    o.map (fun kv => if kv.1 == k then (k, v) else kv)
  else
    o ++ [(k, v)]

/-- The request interceptor of frontend/src/api/client.ts: for a `get`
request it merges a cache-busting param `_t` carrying `Date.now()` into the
caller's params; `now` is the clock reading (milliseconds) at the moment
the request is issued. -/
def requestInterceptor (cfg : AxiosConfig) (now : Nat) : AxiosConfig :=
  if cfg.method == "get" then
    { cfg with params := setKey cfg.params ("_t") (.num now) }
  else
    cfg

/-- C2: for every successful `create(fields)` call (prompt template or
document), an immediately following `get` on the returned id yields a
record whose supplied fields equal `fields` and whose `created_at` equals
`updated_at`. -/
theorem create_get_roundtrip (f : PromptTemplateCreate) (g : DocumentCreate)
    (t u : Nat) (s : PromptStore) (r : DocStore) (i j : Nat)
    (s2 : PromptStore) (r2 : DocStore)
    (hp : createPrompt f t s = .ok (i, s2))
    (hd : createDoc g u r = .ok (j, r2)) :
    getPrompt i s2 = .ok { id := i, name := f.name,
                           description := f.description,
                           system_prompt := f.system_prompt,
                           created_at := t, updated_at := t } ∧
    getDoc j r2 = .ok { id := j, title := g.title, doc := g.doc,
                        created_at := u, updated_at := u } := by
  constructor
  · unfold createPrompt at hp
    split at hp
    · exact absurd hp (by simp)
    · simp only [Except.ok.injEq, Prod.mk.injEq] at hp
      obtain ⟨hi, hs⟩ := hp
      subst hi
      subst hs
      simp [getPrompt, List.find?]
  · unfold createDoc at hd
    split at hd
    · exact absurd hd (by simp)
    · simp only [Except.ok.injEq, Prod.mk.injEq] at hd
      obtain ⟨hj, hr⟩ := hd
      subst hj
      subst hr
      simp [getDoc, List.find?]

/-- A concrete prompt-template creation payload, mirroring the first seed
row of docker/init.sql, used to instantiate the general theorems. -/
def demoPromptCreate : PromptTemplateCreate :=
  { name := "默认助手模板", description := "通用",
    system_prompt := "你是一个专业的AI助手" }

/-- The row produced by `createPrompt demoPromptCreate 7` on an empty
store. -/
def demoPromptRow : PromptTemplate :=
  { id := 1, name := "默认助手模板", description := "通用",
    system_prompt := "你是一个专业的AI助手", created_at := 7,
    updated_at := 7 }

/-- A one-row prompt store holding `demoPromptRow`. -/
def demoPromptStore : PromptStore :=
  { nextId := 2, rows := [demoPromptRow] }

/-- A concrete document creation payload. -/
def demoDocCreate : DocumentCreate :=
  { title := "t", doc := "正文" }

/-- The row produced by `createDoc demoDocCreate 9` on an empty store. -/
def demoDocRow : Document :=
  { id := 1, title := "t", doc := "正文", created_at := 9, updated_at := 9 }

/-- A one-row document store holding `demoDocRow`. -/
def demoDocStore : DocStore :=
  { nextId := 2, rows := [demoDocRow] }

/-- C2 witness: the roundtrip instantiated at a concrete creation against
the empty stores. -/
theorem create_get_roundtrip_witness :
    getPrompt 1 demoPromptStore =
      .ok { id := 1, name := demoPromptCreate.name,
            description := demoPromptCreate.description,
            system_prompt := demoPromptCreate.system_prompt,
            created_at := 7, updated_at := 7 } ∧
    getDoc 1 demoDocStore =
      .ok { id := 1, title := demoDocCreate.title,
            doc := demoDocCreate.doc, created_at := 9, updated_at := 9 } :=
  create_get_roundtrip demoPromptCreate demoDocCreate 7 9
    { nextId := 1, rows := [] } { nextId := 1, rows := [] } 1 1
    demoPromptStore demoDocStore rfl rfl

/-- Helper: the merge of a partial update never changes the row id. -/
theorem applyPromptUpdate_id (r : PromptTemplate) (p : PromptTemplateUpdate)
    (now : Nat) : (applyPromptUpdate r p now).id = r.id := rfl

/-- C1: for every `update(id, partialFields)` call on an existing prompt
template, only the fields supplied in `partialFields` are overwritten
(an unsupplied `none` field keeps its prior value via `getD`), `id` and
`created_at` are unchanged, `updated_at` is set to the call time even when
no supplied value differs from the stored one, and records with any other
id are untouched. -/
theorem update_only_supplied_fields (i j : Nat) (p : PromptTemplateUpdate)
    (now : Nat) (s s2 : PromptStore) (old : PromptTemplate)
    (hget : getPrompt i s = .ok old)
    (hupd : updatePrompt i p now s = .ok s2) (hj : j ≠ i) :
    getPrompt i s2 = .ok { id := old.id,
                           name := p.name.getD old.name,
                           description := p.description.getD old.description,
                           system_prompt :=
                             p.system_prompt.getD old.system_prompt,
                           created_at := old.created_at,
                           updated_at := now } ∧
    getPrompt j s2 = getPrompt j s := by
  have hg : ∀ r : PromptTemplate,
      ((if r.id == i then applyPromptUpdate r p now else r).id) = r.id := by
    intro r
    by_cases h : r.id == i <;> simp [h, applyPromptUpdate_id]
  unfold updatePrompt at hupd
  split at hupd
  case isFalse => exact absurd hupd (by simp)
  case isTrue hany =>
    simp only [Except.ok.injEq] at hupd
    subst hupd
    unfold getPrompt at hget
    split at hget
    case h_2 => exact absurd hget (by simp)
    case h_1 r hfind =>
      simp only [Except.ok.injEq] at hget
      subst hget
      have hid : (r.id == i) = true := by
        have h2 := List.find?_some hfind
        exact h2
      constructor
      · unfold getPrompt
        rw [List.find?_map]
        have hpred :
            ((fun x : PromptTemplate => x.id == i) ∘
              (fun x => if x.id == i then applyPromptUpdate x p now else x)) =
            (fun x : PromptTemplate => x.id == i) := by
          funext x
          simp only [Function.comp]
          rw [hg x]
        rw [hpred, hfind]
        simp only [Option.map_some']
        rw [hid]
        simp only [if_pos]
        rfl
      · unfold getPrompt
        rw [List.find?_map]
        have hpred :
            ((fun x : PromptTemplate => x.id == j) ∘
              (fun x => if x.id == i then applyPromptUpdate x p now else x)) =
            (fun x : PromptTemplate => x.id == j) := by
          funext x
          simp only [Function.comp]
          rw [hg x]
        rw [hpred]
        cases hf : s.rows.find? (fun x => x.id == j) with
        | none => rfl
        | some q =>
          have hqj : (q.id == j) = true := by
            have h3 := List.find?_some hf
            exact h3
          have hqi : (q.id == i) = false := by
            simp only [beq_iff_eq] at hqj ⊢
            simp [hqj, hj]
          simp only [Option.map_some', hqi]
          rfl

/-- C1 witness: updating only `description` on the one-row demo store at
time 8 keeps `name`, `system_prompt` and `created_at`, refreshes
`updated_at`, and leaves the absent id 2 absent. -/
theorem update_only_supplied_fields_witness :
    getPrompt 1 { nextId := 2,
                  rows := [{ id := 1, name := "默认助手模板",
                             description := "更新",
                             system_prompt := "你是一个专业的AI助手",
                             created_at := 7, updated_at := 8 }] } =
      .ok { id := demoPromptRow.id,
            name := (Option.none).getD demoPromptRow.name,
            description := (Option.some "更新").getD demoPromptRow.description,
            system_prompt := (Option.none).getD demoPromptRow.system_prompt,
            created_at := demoPromptRow.created_at, updated_at := 8 } ∧
    getPrompt 2 { nextId := 2,
                  rows := [{ id := 1, name := "默认助手模板",
                             description := "更新",
                             system_prompt := "你是一个专业的AI助手",
                             created_at := 7, updated_at := 8 }] } =
      getPrompt 2 demoPromptStore :=
  update_only_supplied_fields 1 2
    { name := none, description := some "更新", system_prompt := none }
    8 demoPromptStore
    { nextId := 2,
      rows := [{ id := 1, name := "默认助手模板", description := "更新",
                 system_prompt := "你是一个专业的AI助手",
                 created_at := 7, updated_at := 8 }] }
    demoPromptRow rfl rfl (by decide)

/-- C4: creating a prompt template with an empty required field (`name` or
`system_prompt`) and creating a document with an empty required field
(`doc`) both fail with `ValidationError`; the error return carries no new
store, so no record is inserted. -/
theorem create_empty_required_fails (f : PromptTemplateCreate)
    (d : DocumentCreate) (t u : Nat) (s : PromptStore) (r : DocStore)
    (hf : f.name = "" ∨ f.system_prompt = "") (hd : d.doc = "") :
    createPrompt f t s = .error .validationError ∧
    createDoc d u r = .error .validationError := by
  constructor
  · unfold createPrompt
    split
    · rfl
    · rename_i hcond
      exact absurd hf hcond
  · unfold createDoc
    split
    · rfl
    · rename_i hcond
      exact absurd hd hcond

/-- C4 witness: an empty `name` on a prompt-template creation and an empty
`doc` on a document creation are rejected against the seeded stores. -/
theorem create_empty_required_fails_witness :
    createPrompt { name := "", description := "d",
                   system_prompt := "sp" } 3 demoPromptStore =
      .error .validationError ∧
    createDoc { title := "t", doc := "" } 3 seedDocStore =
      .error .validationError :=
  create_empty_required_fails
    { name := "", description := "d", system_prompt := "sp" }
    { title := "t", doc := "" } 3 3 demoPromptStore seedDocStore
    (Or.inl rfl) rfl

/-- Helper: after filtering out id `i`, no row with id `i` remains. -/
theorem any_id_filtered (i : Nat) (l : List PromptTemplate) :
    ((l.filter (fun r => r.id != i)).any (fun r => r.id == i)) = false := by
  rw [List.any_eq_false]
  intro x hx
  obtain ⟨-, hne⟩ := List.mem_filter.1 hx
  simp only [bne_iff_ne, ne_eq] at hne
  simp [hne]

/-- C7: after a successful `delete(id)` on the prompt store, `get(id)`
fails with `NotFoundError` and a repeated `delete(id)` fails with
`NotFoundError` as well; moreover a failed delete on any store fails with
`NotFoundError` (never silently) and leaves that store unchanged. -/
theorem delete_then_get_notFound (i : Nat) (s s2 t : PromptStore)
    (e : DalError) (h : deletePrompt i s = .ok s2)
    (ht : deletePrompt i t = .error e) :
    getPrompt i s2 = .error .notFound ∧
    deletePrompt i s2 = .error .notFound ∧
    e = .notFound ∧ deletePromptRun i t = (.error .notFound, t) := by
  have hfail : e = .notFound ∧ deletePromptRun i t = (.error .notFound, t) := by
    unfold deletePrompt at ht
    split at ht
    case isTrue => exact absurd ht (by simp)
    case isFalse hcond =>
      simp only [Except.error.injEq] at ht
      subst ht
      refine ⟨rfl, ?_⟩
      unfold deletePromptRun deletePrompt
      rw [if_neg hcond]
  unfold deletePrompt at h
  split at h
  case isFalse => exact absurd h (by simp)
  case isTrue hany =>
    simp only [Except.ok.injEq] at h
    subst h
    refine ⟨?_, ?_, hfail⟩
    · have hnone :
          (s.rows.filter (fun r => r.id != i)).find?
            (fun r => r.id == i) = none := by
        rw [List.find?_eq_none]
        intro x hx
        obtain ⟨-, hne⟩ := List.mem_filter.1 hx
        simp only [bne_iff_ne, ne_eq] at hne
        simp [hne]
      unfold getPrompt
      rw [hnone]
    · unfold deletePrompt
      simp only [any_id_filtered]
      rfl

/-- C7 witness: deleting id 1 from the one-row demo store empties it; a
second get and delete of id 1 fail with `NotFoundError`, and the failed
delete leaves the emptied store unchanged. -/
theorem delete_then_get_notFound_witness :
    getPrompt 1 { nextId := 2, rows := [] } = .error .notFound ∧
    deletePrompt 1 { nextId := 2, rows := [] } = .error .notFound ∧
    DalError.notFound = .notFound ∧
    deletePromptRun 1 { nextId := 2, rows := [] } =
      (.error .notFound, { nextId := 2, rows := [] }) :=
  delete_then_get_notFound 1 demoPromptStore
    { nextId := 2, rows := [] } { nextId := 2, rows := [] }
    .notFound rfl rfl

/-- C8: `list(offset, limit)` returns at most `limit` previews, and an
offset at or past the total record count yields the empty sequence rather
than an error. -/
theorem list_pagination (skip limit : Nat) (s : DocStore) :
    (listDocs skip limit s).length ≤ limit ∧
    (countDocs s ≤ skip → listDocs skip limit s = []) := by
  constructor
  · unfold listDocs
    rw [List.length_map, List.length_take]
    exact min_le_left _ _
  · intro h
    unfold listDocs
    rw [List.drop_eq_nil_of_le h]
    simp

/-- C8 witness: over the two-row seeded store, `list(2, 5)` is within the
limit and empty, the offset being equal to the count. -/
theorem list_pagination_witness :
    (listDocs 2 5 seedDocStore).length ≤ 5 ∧
    listDocs 2 5 seedDocStore = [] :=
  ⟨(list_pagination 2 5 seedDocStore).1,
   (list_pagination 2 5 seedDocStore).2 (by decide)⟩

/-- C3: every preview returned by `list` or `search` carries a
`doc_preview` of at most `previewLen` characters in place of the body,
while `get(id)` returns a record of the store itself, full `doc` body
included. -/
theorem list_search_preview_only (skip limit i : Nat) (kw : String)
    (s : DocStore) (p q : DocumentPreview) (d : Document)
    (hp : p ∈ listDocs skip limit s) (hq : q ∈ searchDocs kw s)
    (hd : getDoc i s = .ok d) :
    p.doc_preview.length ≤ previewLen ∧
    q.doc_preview.length ≤ previewLen ∧
    d ∈ s.rows := by
  refine ⟨?_, ?_, ?_⟩
  · obtain ⟨x, hx, hxp⟩ := List.mem_map.1 hp
    subst hxp
    have hlen : ((toPreview x).doc_preview).length =
        (x.doc.data.take previewLen).length := rfl
    rw [hlen, List.length_take]
    exact min_le_left _ _
  · obtain ⟨x, hx, hxq⟩ := List.mem_map.1 hq
    subst hxq
    have hlen : ((toPreview x).doc_preview).length =
        (x.doc.data.take previewLen).length := rfl
    rw [hlen, List.length_take]
    exact min_le_left _ _
  · unfold getDoc at hd
    split at hd
    case h_2 => exact absurd hd (by simp)
    case h_1 r hfind =>
      simp only [Except.ok.injEq] at hd
      subst hd
      exact List.mem_of_find?_eq_some hfind

/-- C3 witness: concrete previews from `list` and `search` over the seeded
store are bounded, and `get(1)` returns the full first seeded document. -/
theorem list_search_preview_only_witness :
    (toPreview seedDoc2).doc_preview.length ≤ previewLen ∧
    (toPreview seedDoc1).doc_preview.length ≤ previewLen ∧
    seedDoc1 ∈ seedDocStore.rows :=
  list_search_preview_only 0 10 1 ("Python") seedDocStore
    (toPreview seedDoc2) (toPreview seedDoc1) seedDoc1
    (by decide) (by decide) rfl

/-- C6: over the store seeded by docker/init.sql, the case-insensitive
substring search for "Python" returns exactly the preview of the document
titled "Python快速入门指南", and the search for "nonexistent-keyword-xyz"
returns the empty sequence. -/
theorem search_seeded_store :
    searchDocs ("Python") seedDocStore = [toPreview seedDoc1] ∧
    searchDocs ("nonexistent-keyword-xyz") seedDocStore = [] := by
  constructor
  · rfl
  · rfl

/-- C5 counterexample: the model resource's list operation is reached at
`GET /models/` (frontend/src/api/models.ts), not at `GET /models/list` as
the uniform `/\x7bresource\x7d/list` shape would require; the three
resources do not expose the identical endpoint shape. -/
theorem model_list_path_not_uniform :
    modelListRequest.url ≠ listPathOf ("models") := by decide

/-- C5 amended: the prompt and document list operations are reached at
`GET /\x7bresource\x7d/list`, while the model list operation is reached at
`GET /models/`; for each of the three resources the create operation's
response type carries the assigned `id`. -/
theorem endpoint_shape_amended :
    promptListRequest = { method := "get", url := listPathOf ("prompts") } ∧
    documentListRequest =
      { method := "get", url := listPathOf ("documents") } ∧
    modelListRequest = { method := "get", url := "/models/" } ∧
    "id" ∈ promptCreateResponseFields ∧
    "id" ∈ modelCreateResponseFields ∧
    "id" ∈ documentCreateResponseFields := by decide

/-- C9: the document list view's name cell reads property `name`, which is
absent from every `DocumentPreview` object (whose keys are `id`, `title`,
`doc_preview`, `created_at`, `updated_at`), so the cell renders the
undefined read `none` for every document, even though the `title`
property it should have used is present. -/
theorem document_list_name_cell_undefined (d : DocumentPreview) :
    documentListNameCell d = none ∧
    jsGet (DocumentPreview.toObj d) ("title") = some (.str d.title) := by
  constructor <;> rfl

/-- C10 amended: for a `get` request whose caller-supplied params do not
already carry `_t`, the interceptor appends `_t` set to the clock reading
at the moment the request is issued, keeping all caller params; two
invocations with identical arguments at distinct clock readings issue
different requests (the counterexample shows invocations within the same
millisecond issue identical ones). -/
theorem interceptor_cachebuster (cfg : AxiosConfig) (t1 t2 : Nat)
    (hget : cfg.method = "get")
    (hfresh : cfg.params.any (fun kv => kv.1 == "_t") = false)
    (hne : t1 ≠ t2) :
    (requestInterceptor cfg t1).params =
      cfg.params ++ [("_t", JsValue.num t1)] ∧
    requestInterceptor cfg t1 ≠ requestInterceptor cfg t2 := by
  have h1 : requestInterceptor cfg t1 =
      { cfg with params := cfg.params ++ [("_t", JsValue.num t1)] } := by
    unfold requestInterceptor setKey
    simp [hget, hfresh]
  have h2 : requestInterceptor cfg t2 =
      { cfg with params := cfg.params ++ [("_t", JsValue.num t2)] } := by
    unfold requestInterceptor setKey
    simp [hget, hfresh]
  constructor
  · rw [h1]
  · rw [h1, h2]
    intro hcontra
    have hparams := congrArg AxiosConfig.params hcontra
    simp only [] at hparams
    have h3 := List.append_cancel_left hparams
    simp only [List.cons.injEq, Prod.mk.injEq, JsValue.num.injEq,
               and_true, true_and] at h3
    exact hne h3

/-- C10 witness: the cache-buster behavior at concrete clock readings 1
and 2 on the `documentApi.count` request. -/
theorem interceptor_cachebuster_witness :
    (requestInterceptor { method := "get", url := "/documents/count",
                          params := [] } 1).params =
      [] ++ [("_t", JsValue.num 1)] ∧
    requestInterceptor { method := "get", url := "/documents/count",
                         params := [] } 1 ≠
    requestInterceptor { method := "get", url := "/documents/count",
                         params := [] } 2 :=
  interceptor_cachebuster
    { method := "get", url := "/documents/count", params := [] }
    1 2 rfl rfl (by decide)

/-- C10 counterexample: two invocations of the same SDK method with
identical arguments do not always issue different HTTP requests:
`Date.now()` has millisecond resolution, so two invocations within one
millisecond receive the same clock reading and the interceptor produces
the very same request both times — pinned here by computing the one
request that every invocation of `documentApi.count` at clock reading
1700000000000 issues. -/
theorem interceptor_same_millisecond :
    requestInterceptor { method := "get", url := "/documents/count",
                         params := [] } 1700000000000 =
      { method := "get", url := "/documents/count",
        params := [("_t", JsValue.num 1700000000000)] } := rfl

end RagRobot
